import Mathlib

/-!
Verification development for the `ReviewService` CRUD core found in
`src/app/src/services/reviews.py`.

The service is a façade over a MongoDB collection named "reviews".
We embed the collection as a list of documents together with a counter
supplying the next store-generated identifier, and embed each service
method (`get`, `add`, `update`, `remove`, `check_if_review_exist`) as a
pure function from the store (plus the method's arguments) to a result
and the successor store.  HTTP-style failures (`HTTPException`) and
unhandled exceptions (database faults, `bson.errors.InvalidId`) are
modelled with an explicit error type returned through `Except`.

Database awaits can fault.  Where a claim is about fault behaviour the
corresponding method takes one Boolean flag per awaited database call,
indicating that this call raises a database-layer fault; the flag's
position in the control flow mirrors the position of the `await` in the
Python source, in particular whether it sits inside a `try` block.

The object identifier (`_id`, produced by the store) is embedded as a
natural number; its canonical string form is its decimal digit string,
and a malformed identifier string is one that is empty or contains a
non-digit character, on which the `ObjectId` constructor raises.
-/

/-- Modelled from the spec: `ReviewIn` from `src/api/v1/schemas.py`, which is
not part of the provided sources.  Client-submitted fields: `film_id` plus
free-form review content, represented here by a single `text` field
(as in the spec §8 example). -/
structure ReviewIn where
  film_id : String
  text : String
deriving DecidableEq

/-- Modelled from the spec: `Review` from `src/api/v1/schemas.py` (not in the
provided sources).  Domain entity: the `ReviewIn` fields plus the
authenticated `user_id`. -/
structure Review where
  film_id : String
  user_id : String
  text : String
deriving DecidableEq

/-- Modelled from the spec: `ReviewFromDB` from `src/api/v1/schemas.py` (not in
the provided sources).  Persisted entity: all `Review` fields plus the
database-assigned identifier `_id`, marshaled to and from its canonical
string form at the API boundary; inside the model we keep it numeric. -/
structure ReviewFromDB where
  id : Nat
  film_id : String
  user_id : String
  text : String
deriving DecidableEq

/-- One raw document of the "reviews" collection: the store-assigned `_id`
(field `oid` here) plus the persisted review fields. -/
structure Doc where
  oid : Nat
  film_id : String
  user_id : String
  text : String
deriving DecidableEq

/-- State of the "reviews" collection: the stored documents in natural
(insertion) order, and the next identifier the store will assign. -/
structure Store where
  docs : List Doc
  nextOid : Nat
deriving DecidableEq

/-- Store health invariant: store-assigned identifiers are pairwise distinct
and below the next identifier to be assigned.  Every store reachable from the
empty store through the modelled operations satisfies it. -/
def Store.Wf (s : Store) : Prop :=
  (s.docs.map Doc.oid).Nodup ∧ ∀ d ∈ s.docs, d.oid < s.nextOid

instance (s : Store) : Decidable s.Wf := by
  unfold Store.Wf
  infer_instance

/-- Digit-string parser underlying the object-identifier marshaling. -/
def parseDigits : List Char → Nat → Option Nat
  | [], acc => some acc
  | c :: cs, acc =>
    if c.isDigit then parseDigits cs (acc * 10 + (c.toNat - 48)) else none

/-- Embedding of `bson.objectid.ObjectId(review_id)`: parse the canonical
string form of a store identifier.  `none` means the constructor raises
`InvalidId` (malformed identifier). -/
def parseOid (s : String) : Option Nat :=
  match s.data with
  | [] => none
  | cs => parseDigits cs 0

/-- Embedding of `find_one({"_id": x})`: first document in natural order whose
identifier is `x`, if any (source line 74, 84 and 99). -/
def find_one_by_id (l : List Doc) (x : Nat) : Option Doc :=
  l.find? (fun d => d.oid == x)

/-- Embedding of `insert_one(review_data_for_db)` (source line 61): the store
assigns the next identifier, appends the document, and reports the
`inserted_id`. -/
def insert_one (s : Store) (r : Review) : Nat × Store :=
  (s.nextOid,
   ⟨s.docs ++ [⟨s.nextOid, r.film_id, r.user_id, r.text⟩], s.nextOid + 1⟩)

/-- Flat field mapping produced by `jsonable_encoder` on a `ReviewFromDB`
(source lines 81 and 82).  Modelled from the spec: the serialized `id`
field travels under a key distinct from the store's `_id` key and, per the
spec, an update submitting data identical to the stored document modifies
zero documents, so the mapping carries exactly the persisted review
fields. -/
structure FieldMap where
  film_id : String
  user_id : String
  text : String
deriving DecidableEq

/-- Serialization of the update payload to a flat field mapping, embedding
`jsonable_encoder(data)` followed by the identity dict comprehension of
source line 82. -/
def jsonableEncode (data : ReviewFromDB) : FieldMap :=
  ⟨data.film_id, data.user_id, data.text⟩

/-- Mongo `$set` semantics on one document: replace the named fields, keep
the rest — in particular the store key `_id` is never touched. -/
def setFields (m : FieldMap) (d : Doc) : Doc :=
  { d with film_id := m.film_id, user_id := m.user_id, text := m.text }

/-- Apply `$set` to the first document matching the identifier, leaving all
other documents in place. -/
def updateFirst : List Doc → Nat → FieldMap → List Doc
  | [], _, _ => []
  | d :: rest, x, m =>
    if d.oid == x then setFields m d :: rest else d :: updateFirst rest x m

/-- Embedding of `update_one({"_id": x}, {"$set": m})` (source line 93): the
first matching document receives the fields; `modified_count` (first
component) is 1 exactly when a matched document actually changed. -/
def update_one (l : List Doc) (x : Nat) (m : FieldMap) : Nat × List Doc :=
  match l.find? (fun d => d.oid == x) with
  | none => (0, l)
  | some d => (if setFields m d = d then 0 else 1, updateFirst l x m)

/-- Embedding of `delete_one({"_id": x})` (source line 106): remove the first
matching document; `deleted_count` (first component) is 1 exactly when a
document matched. -/
def delete_one (l : List Doc) (x : Nat) : Nat × List Doc :=
  ((if l.any (fun d => d.oid == x) then 1 else 0),
   l.eraseP (fun d => d.oid == x))

/-- Failure outcomes of a service method.  `http status detail` is a raised
`HTTPException`; `dbFault` is an unhandled database-layer exception
propagating out of an `await`; `invalidId given` is the unhandled
`bson.errors.InvalidId` raised by `ObjectId(given)` on a malformed
identifier string. -/
inductive Err where
  | http (status : Nat) (detail : String)
  | dbFault
  | invalidId (given : String)
deriving DecidableEq

/-- Ascending order on documents by store identifier, as produced by
`.sort("_id")`. -/
def oidLe (a b : Doc) : Prop := a.oid ≤ b.oid

instance : DecidableRel oidLe := fun a b => Nat.decLe a.oid b.oid

instance : IsTotal Doc oidLe := ⟨fun a b => Nat.le_total a.oid b.oid⟩

instance : IsTrans Doc oidLe := ⟨fun _ _ _ h h2 => Nat.le_trans h h2⟩

namespace ReviewService

/-- The collection sorted ascending by `_id`, as produced by
`.find().sort("_id")` (source lines 26 to 28); a stable structural sort. -/
def sortDocs (l : List Doc) : List Doc :=
  List.insertionSort oidLe l

/-- Reconstruction of a `ReviewFromDB` record from a raw document,
embedding `ReviewFromDB(**review)` (source line 41). -/
def fromDoc (d : Doc) : ReviewFromDB :=
  ⟨d.oid, d.film_id, d.user_id, d.text⟩

/-- Embedding of `ReviewService.get` (source lines 21 to 43).  Python
defaults are `page_number = 1`, `per_page = 50`.  `faultCursor` injects a
fault into the cursor-construction steps of lines 25 to 31 (the only code
covered by the `try` of line 24: the `except` logs and raises a 500);
`faultFetch` injects a database fault into the awaited
`to_list(length=per_page)` fetch of line 40, which sits outside the `try`
and therefore propagates unhandled and unlogged.  On success the cursor
yields the collection sorted ascending by `_id`, skipping
`(page_number - 1) * per_page` documents and limited to `per_page`; the two
`take`s mirror `.limit(per_page)` and `to_list(length=per_page)`.  The
first component is the sequence of messages sent to the logging sink. -/
def get (s : Store) (page_number per_page : Nat) (faultCursor faultFetch : Bool) :
    List String × Except Err (List ReviewFromDB) :=
  if faultCursor then
    (["Error while getting reviews: exc"],
     .error (.http 500 "Error while getting reviews"))
  else if faultFetch then
    ([], .error .dbFault)
  else
    ([], .ok (((((sortDocs s.docs).drop ((page_number - 1) * per_page)).take
        per_page).take per_page).map fromDoc))

/-- Embedding of `ReviewService.check_if_review_exist` (source lines 116 to
121): `find_one({"film_id": movie_id, "user_id": user_id})`. -/
def check_if_review_exist (s : Store) (movie_id user_id : String) : Option Doc :=
  s.docs.find? (fun d => d.film_id == movie_id && d.user_id == user_id)

/-- Embedding of `ReviewService.add` (source lines 45 to 76).  `faultCheck`
injects a database fault into the awaited existence check of line 51 (not
inside any `try`: it propagates unhandled and unlogged); `faultInsert`
injects one into the awaited `insert_one` of line 61 (inside the `try` of
line 60: logged and translated to a 500); `faultReread` injects one into the
awaited re-read of line 74 (again outside any `try`).  On success the
method re-reads and returns the raw inserted document by its generated
identifier.  The first component is the logging-sink output. -/
def add (s : Store) (user_id : String) (data : ReviewIn)
    (faultCheck faultInsert faultReread : Bool) :
    List String × Except Err (Option Doc) × Store :=
  let review : Review := ⟨data.film_id, user_id, data.text⟩
  let film_id := review.film_id
  if faultCheck then ([], .error .dbFault, s)
  else
    match check_if_review_exist s film_id user_id with
    | some _ =>
      ([], .error (.http 409
        s!"Review by user {user_id} for movie {film_id} already exist"), s)
    | none =>
      if faultInsert then
        ([s!"Error while adding review by {user_id} for movie {film_id}: exc"],
         .error (.http 500
           s!"Error while adding review by {user_id} for movie {film_id}"), s)
      else
        let ins := insert_one s review
        if faultReread then ([], .error .dbFault, ins.2)
        else ([], .ok (find_one_by_id ins.2.docs ins.1), ins.2)

/-- Embedding of `ReviewService.update` (source lines 78 to 101): serialize
the payload, parse the identifier (raising `InvalidId` on a malformed
string), fail with 404 when no document carries it, otherwise `$set` the
fields on the matching document; the updated document is re-read and
returned only when `modified_count == 1`, and Python's implicit `None`
(modelled `.ok none`) is returned otherwise. -/
def update (s : Store) (review_id : String) (data : ReviewFromDB) :
    Except Err (Option Doc) × Store :=
  let prep_review_data := jsonableEncode data
  match parseOid review_id with
  | none => (.error (.invalidId review_id), s)
  | some x =>
    match find_one_by_id s.docs x with
    | none => (.error (.http 404 s!"Not found review {review_id} for update"), s)
    | some _ =>
      let res := update_one s.docs x prep_review_data
      if res.1 = 1 then
        (.ok (find_one_by_id res.2 x), ⟨res.2, s.nextOid⟩)
      else
        (.ok none, ⟨res.2, s.nextOid⟩)

/-- Embedding of `ReviewService.remove` (source lines 103 to 114): parse the
identifier (raising `InvalidId` on a malformed string), delete the first
matching document, and fail with 404 when `deleted_count` is not 1. -/
def remove (s : Store) (review_id : String) : Except Err Unit × Store :=
  match parseOid review_id with
  | none => (.error (.invalidId review_id), s)
  | some x =>
    let res := delete_one s.docs x
    if res.1 ≠ 1 then
      (.error (.http 404 s!"Not found review {review_id} for deletion"),
       ⟨res.2, s.nextOid⟩)
    else
      (.ok (), ⟨res.2, s.nextOid⟩)

end ReviewService

/-- Number of persisted documents for a `(film_id, user_id)` pair. -/
def pairCount (s : Store) (f u : String) : Nat :=
  (s.docs.filter (fun d => d.film_id == f && d.user_id == u)).length

deriving instance DecidableEq for Except

/-- Empty store, used to instantiate universally quantified results. -/
def emptyStore : Store := ⟨[], 0⟩

/-- One-document store, used to instantiate universally quantified results. -/
def oneStore : Store := ⟨[⟨1, "f1", "u1", "great"⟩], 2⟩

/-- Three-document store with out-of-order identifiers, used to instantiate
universally quantified results about pagination. -/
def threeStore : Store := ⟨[⟨3, "f3", "u3", "c"⟩, ⟨1, "f1", "u1", "a"⟩, ⟨2, "f2", "u2", "b"⟩], 4⟩

/-- Auxiliary: a failed search over the first chunk of an appended list defers
to the second chunk. -/
theorem find?_append_of_none {α : Type} {p : α → Bool} {l₁ l₂ : List α}
    (h : l₁.find? p = none) : (l₁ ++ l₂).find? p = l₂.find? p := by
  rw [List.find?_append, h, Option.none_or]

/-- Auxiliary: applying `$set` fields leaves the map of store identifiers
unchanged. -/
theorem updateFirst_oid_map (l : List Doc) (x : Nat) (m : FieldMap) :
    (updateFirst l x m).map Doc.oid = l.map Doc.oid := by
  induction l with
  | nil => rfl
  | cons d rest ih =>
    by_cases h : d.oid == x
    · simp [updateFirst, h, setFields]
    · simp [updateFirst, h, ih]

/-- Auxiliary: when the first matching document absorbs its own fields,
`$set` leaves the document list unchanged. -/
theorem updateFirst_eq_self {l : List Doc} {x : Nat} {m : FieldMap} {d : Doc}
    (hfind : l.find? (fun e => e.oid == x) = some d) (hid : setFields m d = d) :
    updateFirst l x m = l := by
  induction l with
  | nil => simp at hfind
  | cons e rest ih =>
    by_cases h : e.oid == x
    · rw [@List.find?_cons_of_pos _ (fun f => f.oid == x) e rest h] at hfind
      obtain rfl : e = d := by injection hfind
      simp [updateFirst, h, hid]
    · rw [@List.find?_cons_of_neg _ (fun f => f.oid == x) e rest h] at hfind
      simp [updateFirst, h, ih hfind]

/-- Auxiliary: a position changed by `$set` held a document carrying the
targeted identifier. -/
theorem updateFirst_getElem?_ne {l : List Doc} {x : Nat} {m : FieldMap} {i : Nat}
    (hne : (updateFirst l x m)[i]? ≠ l[i]?) :
    ∃ d, l[i]? = some d ∧ d.oid = x := by
  induction l generalizing i with
  | nil => simp [updateFirst] at hne
  | cons e rest ih =>
    by_cases h : e.oid == x
    · cases i with
      | zero => exact ⟨e, by simp, by simpa using h⟩
      | succ j => simp [updateFirst, h] at hne
    · cases i with
      | zero => simp [updateFirst, h] at hne
      | succ j =>
        simp only [updateFirst, if_neg h, List.getElem?_cons_succ] at hne
        simpa using ih hne

/-- Auxiliary: with pairwise-distinct identifiers, erasing the first match is
the same as filtering out every match. -/
theorem eraseP_eq_filter_not (l : List Doc) (x : Nat)
    (hnd : (l.map Doc.oid).Nodup) :
    l.eraseP (fun d => d.oid == x) = l.filter (fun d => !(d.oid == x)) := by
  induction l with
  | nil => rfl
  | cons e rest ih =>
    simp only [List.map_cons, List.nodup_cons] at hnd
    by_cases h : e.oid == x
    · have hx : e.oid = x := by simpa using h
      rw [@List.eraseP_cons_of_pos _ e rest (fun d => d.oid == x) h,
        @List.filter_cons_of_neg _ (fun d => !(d.oid == x)) e rest (by simpa using h)]
      rw [List.filter_eq_self.mpr]
      intro d hd
      have : d.oid ≠ e.oid := by
        intro hEq
        exact hnd.1 (hEq ▸ List.mem_map_of_mem Doc.oid hd)
      simp [hx ▸ this]
    · rw [@List.eraseP_cons_of_neg _ e rest (fun d => d.oid == x) h,
        @List.filter_cons_of_pos _ (fun d => !(d.oid == x)) e rest (by simpa using h)]
      rw [ih hnd.2]

/-- Auxiliary: no document survives a filter that excludes its identifier. -/
theorem find?_filter_not (l : List Doc) (x : Nat) :
    (l.filter (fun d => !(d.oid == x))).find? (fun d => d.oid == x) = none := by
  rw [List.find?_eq_none]
  intro d hd
  simpa using (List.mem_filter.mp hd).2

/-- C3 helper fact: the branch of `get` where the cursor-construction steps
fault is logged and translated to the 500 `HTTPException`, matching the
`except` block of source lines 32 to 38. -/
theorem get_cursor_fault_is_handled (s : Store) (page_number per_page : Nat) :
    ReviewService.get s page_number per_page true false =
      (["Error while getting reviews: exc"],
       .error (.http 500 "Error while getting reviews")) := rfl

/-- C3: a database-layer fault raised by the awaited `to_list` fetch of
source line 40 — the only call in `get` that actually performs database
I/O — propagates out of `get` unhandled: nothing is logged and the result
is the raw fault, not the `HTTPException` with status 500 that the claim
and the spec describe.  The `try` of line 24 ends before line 40. -/
theorem get_fetch_fault_unhandled (s : Store) (page_number per_page : Nat) :
    ReviewService.get s page_number per_page false true = ([], .error .dbFault)
    ∧ ∀ detail : String, Err.dbFault ≠ Err.http 500 detail := by
  exact ⟨rfl, fun _ => by simp⟩

/-- C9: a database-layer fault raised by the awaited existence check of
source line 51 propagates out of `add` unhandled: the logging sink receives
nothing, the store is untouched, and the result is the raw fault rather
than an `HTTPException`, whatever the later fault flags would do. -/
theorem add_check_fault_propagates (s : Store) (user_id : String) (data : ReviewIn)
    (faultInsert faultReread : Bool) :
    ReviewService.add s user_id data true faultInsert faultReread =
      ([], .error .dbFault, s)
    ∧ ∀ status : Nat, ∀ detail : String, Err.dbFault ≠ Err.http status detail := by
  exact ⟨rfl, fun _ _ => by simp⟩

/-- Auxiliary: an update targeting an identifier carried by no document fails
with the 404 `HTTPException` naming the identifier and returns the store
untouched. -/
theorem update_absent_404 (s : Store) (review_id : String) (x : Nat)
    (data : ReviewFromDB)
    (hparse : parseOid review_id = some x)
    (habsent : find_one_by_id s.docs x = none) :
    ReviewService.update s review_id data =
      (.error (.http 404 s!"Not found review {review_id} for update"), s) := by
  simp [ReviewService.update, hparse, habsent]

/-- C5: updating a well-formed identifier that matches no stored document
fails with the 404 `HTTPException` whose detail names the identifier, and
the store comes back exactly as it was: no mutation happens. -/
theorem update_notfound (s : Store) (review_id : String) (x : Nat)
    (data : ReviewFromDB)
    (hparse : parseOid review_id = some x)
    (habsent : find_one_by_id s.docs x = none) :
    ReviewService.update s review_id data =
      (.error (.http 404 s!"Not found review {review_id} for update"), s) :=
  update_absent_404 s review_id x data hparse habsent

/-- C5 witness: updating the absent identifier 9 on the one-document store. -/
theorem update_notfound_witness :
    ReviewService.update oneStore "9" ⟨9, "f9", "u9", "t"⟩ =
      (.error (.http 404 "Not found review 9 for update"), oneStore) :=
  update_notfound oneStore "9" 9 ⟨9, "f9", "u9", "t"⟩ (by decide) (by decide)

/-- C4: updating an existing review with data identical to the stored
document leaves the store unchanged and returns Python's implicit `None`
(modelled `.ok none`): neither the updated document nor a 404 failure. -/
theorem update_identical_noop (s : Store) (review_id : String) (x : Nat)
    (d : Doc) (data : ReviewFromDB)
    (hparse : parseOid review_id = some x)
    (hfound : find_one_by_id s.docs x = some d)
    (hsame : data.film_id = d.film_id ∧ data.user_id = d.user_id ∧ data.text = d.text) :
    ReviewService.update s review_id data = (.ok none, s) := by
  have hfind : s.docs.find? (fun e => e.oid == x) = some d := hfound
  have hset : setFields (jsonableEncode data) d = d := by
    cases d
    simp only [setFields, jsonableEncode]
    simp_all
  have hup : update_one s.docs x (jsonableEncode data) = (0, s.docs) := by
    unfold update_one
    rw [hfind]
    show (if setFields (jsonableEncode data) d = d then 0 else 1,
      updateFirst s.docs x (jsonableEncode data)) = (0, s.docs)
    rw [if_pos hset, updateFirst_eq_self hfind hset]
  simp [ReviewService.update, hparse, hfound, hup]

/-- C4 witness: resubmitting the stored document of the one-document store. -/
theorem update_identical_noop_witness :
    ReviewService.update oneStore "1" ⟨1, "f1", "u1", "great"⟩ = (.ok none, oneStore) :=
  update_identical_noop oneStore "1" 1 ⟨1, "f1", "u1", "great"⟩ ⟨1, "f1", "u1", "great"⟩
    (by decide) (by decide) ⟨rfl, rfl, rfl⟩

/-- Auxiliary: a removal targeting an identifier carried by no document fails
with the 404 `HTTPException` naming the identifier and returns the store
untouched (the `delete_one` deleted nothing). -/
theorem remove_absent_404 (s : Store) (review_id : String) (x : Nat)
    (hparse : parseOid review_id = some x)
    (habsent : find_one_by_id s.docs x = none) :
    ReviewService.remove s review_id =
      (.error (.http 404 s!"Not found review {review_id} for deletion"), s) := by
  have hall : ∀ e ∈ s.docs, ¬((fun d => d.oid == x) e = true) :=
    List.find?_eq_none.mp habsent
  have hany : s.docs.any (fun d => d.oid == x) = false :=
    List.any_eq_false.mpr hall
  have her : s.docs.eraseP (fun d => d.oid == x) = s.docs :=
    List.eraseP_of_forall_not hall
  simp [ReviewService.remove, hparse, delete_one, hany, her]

/-- Auxiliary: a removal targeting a malformed identifier string raises the
unhandled `InvalidId` before any deletion is attempted. -/
theorem remove_malformed_raises (s : Store) (review_id : String)
    (hparse : parseOid review_id = none) :
    ReviewService.remove s review_id = (.error (.invalidId review_id), s) := by
  simp [ReviewService.remove, hparse]

/-- C6: removing a well-formed identifier that matches no stored document
fails with the 404 `HTTPException` naming the identifier and leaves the
store unchanged; removing an identifier carried by a stored document
succeeds, deletes exactly that one document (the survivors are precisely
the documents with a different identifier, in their original order), and a
subsequent lookup by that identifier comes back absent. -/
theorem remove_spec (s : Store) (review_id : String) (x : Nat)
    (hparse : parseOid review_id = some x) (hwf : Store.Wf s) :
    (find_one_by_id s.docs x = none →
      ReviewService.remove s review_id =
        (.error (.http 404 s!"Not found review {review_id} for deletion"), s))
    ∧ (∀ d : Doc, find_one_by_id s.docs x = some d →
        (ReviewService.remove s review_id).1 = .ok ()
        ∧ (ReviewService.remove s review_id).2.docs =
            s.docs.filter (fun e => !(e.oid == x))
        ∧ find_one_by_id ((ReviewService.remove s review_id).2).docs x = none
        ∧ ((ReviewService.remove s review_id).2).docs.length + 1 = s.docs.length) := by
  constructor
  · intro habsent
    exact remove_absent_404 s review_id x hparse habsent
  · intro d hd
    have hfind : s.docs.find? (fun e => e.oid == x) = some d := hd
    have hmem : d ∈ s.docs := List.mem_of_find?_eq_some hfind
    have hp : (fun e => e.oid == x) d = true :=
      @List.find?_some _ (fun e => e.oid == x) d s.docs hfind
    have hany : s.docs.any (fun e => e.oid == x) = true :=
      List.any_eq_true.mpr ⟨d, hmem, hp⟩
    have herase := eraseP_eq_filter_not s.docs x hwf.1
    have hlen : (s.docs.eraseP (fun e => e.oid == x)).length = s.docs.length - 1 :=
      List.length_eraseP_of_mem hmem hp
    have hpos : 0 < s.docs.length := List.length_pos.mpr (List.ne_nil_of_mem hmem)
    refine ⟨?_, ?_, ?_, ?_⟩
    · simp [ReviewService.remove, hparse, delete_one, hany]
    · simp [ReviewService.remove, hparse, delete_one, hany, herase]
    · have : find_one_by_id (s.docs.filter (fun e => !(e.oid == x))) x = none :=
        find?_filter_not s.docs x
      simpa [ReviewService.remove, hparse, delete_one, hany, herase] using this
    · simp [ReviewService.remove, hparse, delete_one, hany, hlen]
      omega

/-- C6 witness: removing document 1 from the one-document store. -/
theorem remove_spec_witness :
    (ReviewService.remove oneStore "1").1 = .ok ()
    ∧ (ReviewService.remove oneStore "1").2.docs =
        oneStore.docs.filter (fun e => !(e.oid == 1))
    ∧ find_one_by_id ((ReviewService.remove oneStore "1").2).docs 1 = none
    ∧ ((ReviewService.remove oneStore "1").2).docs.length + 1 = oneStore.docs.length :=
  (remove_spec oneStore "1" 1 (by decide) (by decide)).2
    ⟨1, "f1", "u1", "great"⟩ (by decide)

/-- C8 counterexample: on the malformed identifier string "xyz" `remove`
does not fail with the NotFound 404; the `ObjectId` constructor raises the
unhandled `InvalidId` before `delete_one` runs, so malformed and absent
identifiers are distinguishable. -/
theorem remove_malformed_not_notfound :
    ReviewService.remove oneStore "xyz" = (.error (.invalidId "xyz"), oneStore)
    ∧ ReviewService.remove oneStore "xyz" ≠
        (.error (.http 404 "Not found review xyz for deletion"), oneStore) :=
  ⟨by decide, by decide⟩

/-- C8 amended: a malformed `review_id` makes `remove` raise the unhandled
`InvalidId` parse error before any deletion is attempted, while a
well-formed but absent `review_id` yields the NotFound 404 failure naming
the id — so `remove` does distinguish malformed from absent identifiers;
in both cases the store is left unchanged. -/
theorem remove_distinguishes_malformed (s : Store) (review_id : String) :
    (parseOid review_id = none →
      ReviewService.remove s review_id = (.error (.invalidId review_id), s))
    ∧ (∀ x : Nat, parseOid review_id = some x → find_one_by_id s.docs x = none →
      ReviewService.remove s review_id =
        (.error (.http 404 s!"Not found review {review_id} for deletion"), s)) := by
  refine ⟨fun h => remove_malformed_raises s review_id h, ?_⟩
  intro x hparse habsent
  exact remove_absent_404 s review_id x hparse habsent

/-- C8 amended witness: the two branches at the one-document store, on the
malformed id "xyz" and on the well-formed absent id "999". -/
theorem remove_distinguishes_malformed_witness :
    ReviewService.remove oneStore "xyz" = (.error (.invalidId "xyz"), oneStore)
    ∧ ReviewService.remove oneStore "999" =
        (.error (.http 404 "Not found review 999 for deletion"), oneStore) :=
  ⟨(remove_distinguishes_malformed oneStore "xyz").1 (by decide),
   (remove_distinguishes_malformed oneStore "999").2 999 (by decide) (by decide)⟩

/-- C10: every call to `update` targets documents purely through `review_id`
and never re-keys a document: the sequence of store identifiers is
unchanged by the call, any position whose document changed held a document
carrying exactly the identifier parsed from `review_id`, and the
identifier field carried inside `data` is ignored entirely (replacing it
changes nothing about the call). -/
theorem update_frame (s : Store) (review_id : String) (data : ReviewFromDB) :
    ((ReviewService.update s review_id data).2.docs.map Doc.oid = s.docs.map Doc.oid)
    ∧ (∀ i : Nat, ((ReviewService.update s review_id data).2.docs)[i]? ≠ s.docs[i]? →
        ∃ d : Doc, s.docs[i]? = some d ∧ parseOid review_id = some d.oid)
    ∧ (∀ n : Nat, ReviewService.update s review_id data =
        ReviewService.update s review_id ⟨n, data.film_id, data.user_id, data.text⟩) := by
  refine ⟨?_, ?_, fun n => rfl⟩
  · cases hp : parseOid review_id with
    | none => simp [ReviewService.update, hp]
    | some x =>
      cases hf : s.docs.find? (fun e => e.oid == x) with
      | none => simp [ReviewService.update, find_one_by_id, hp, hf]
      | some d =>
        have hdocs : (ReviewService.update s review_id data).2.docs =
            updateFirst s.docs x (jsonableEncode data) := by
          simp only [ReviewService.update, find_one_by_id, hp, hf, update_one]
          split <;> rfl
        rw [hdocs, updateFirst_oid_map]
  · intro i hne
    cases hp : parseOid review_id with
    | none => simp [ReviewService.update, hp] at hne
    | some x =>
      cases hf : s.docs.find? (fun e => e.oid == x) with
      | none => simp [ReviewService.update, find_one_by_id, hp, hf] at hne
      | some d =>
        have hdocs : (ReviewService.update s review_id data).2.docs =
            updateFirst s.docs x (jsonableEncode data) := by
          simp only [ReviewService.update, find_one_by_id, hp, hf, update_one]
          split <;> rfl
        rw [hdocs] at hne
        obtain ⟨e, he, hex⟩ := updateFirst_getElem?_ne hne
        exact ⟨e, he, by rw [hex]⟩

/-- C1: starting from a store holding at most one review per pair, after a
successful `add` for `(film_id, user_id)`, a second `add` for the same
pair (whatever its content) fails with the 409 Conflict `HTTPException`
whose detail names both the user and the film, leaves the store untouched,
and the store holds exactly one document for that pair. -/
theorem add_twice_conflict (s : Store) (u : String) (data data₂ : ReviewIn)
    (log : List String) (r : Option Doc) (s₁ : Store)
    (huniq : ∀ f v, pairCount s f v ≤ 1)
    (hfid : data₂.film_id = data.film_id)
    (h1 : ReviewService.add s u data false false false = (log, Except.ok r, s₁)) :
    ReviewService.add s₁ u data₂ false false false =
      ([], .error (.http 409
        s!"Review by user {u} for movie {data₂.film_id} already exist"), s₁)
    ∧ pairCount s₁ data.film_id u = 1 := by
  cases hchk : ReviewService.check_if_review_exist s data.film_id u with
  | some d =>
    exfalso
    have hbad := congrArg (fun t => t.2.1) h1
    simp only [ReviewService.add, hchk] at hbad
    exact Except.noConfusion hbad
  | none =>
    have hs₁ : s₁ = ⟨s.docs ++ [⟨s.nextOid, data.film_id, u, data.text⟩], s.nextOid + 1⟩ := by
      have h2 := congrArg (fun t => t.2.2) h1
      simpa [ReviewService.add, hchk, insert_one] using h2.symm
    subst hs₁
    constructor
    · have hchk2 : ReviewService.check_if_review_exist
          ⟨s.docs ++ [⟨s.nextOid, data.film_id, u, data.text⟩], s.nextOid + 1⟩
          data₂.film_id u = some ⟨s.nextOid, data.film_id, u, data.text⟩ := by
        unfold ReviewService.check_if_review_exist at hchk ⊢
        rw [hfid, find?_append_of_none hchk]
        simp
      simp [ReviewService.add, hchk2]
    · unfold pairCount
      have hnilf : s.docs.filter
          (fun d => d.film_id == data.film_id && d.user_id == u) = [] := by
        rw [List.filter_eq_nil_iff]
        exact List.find?_eq_none.mp hchk
      simp [List.filter_append, hnilf]

/-- C1 witness: adding the §8 example review twice, second submission with
different content but the same pair. -/
theorem add_twice_conflict_witness :
    ReviewService.add ⟨[⟨0, "f1", "u1", "great"⟩], 1⟩ "u1" ⟨"f1", "bad"⟩ false false false =
      ([], .error (.http 409 "Review by user u1 for movie f1 already exist"),
       ⟨[⟨0, "f1", "u1", "great"⟩], 1⟩)
    ∧ pairCount ⟨[⟨0, "f1", "u1", "great"⟩], 1⟩ "f1" "u1" = 1 :=
  add_twice_conflict emptyStore "u1" ⟨"f1", "great"⟩ ⟨"f1", "bad"⟩ []
    (some ⟨0, "f1", "u1", "great"⟩) ⟨[⟨0, "f1", "u1", "great"⟩], 1⟩
    (fun f v => by simp [pairCount, emptyStore]) rfl (by decide)

/-- C7: a successful `add` appends one document made of the submitted input
fields plus `user_id` plus the store-generated identifier, nothing is
logged, and the returned value is exactly that document as found in the
resulting store under the generated identifier (the re-read of source
line 74). -/
theorem add_returns_persisted (s : Store) (user_id : String) (data : ReviewIn)
    (hwf : Store.Wf s)
    (hnew : ReviewService.check_if_review_exist s data.film_id user_id = none) :
    ReviewService.add s user_id data false false false =
      ([], .ok (some ⟨s.nextOid, data.film_id, user_id, data.text⟩),
       ⟨s.docs ++ [⟨s.nextOid, data.film_id, user_id, data.text⟩], s.nextOid + 1⟩)
    ∧ find_one_by_id (s.docs ++ [⟨s.nextOid, data.film_id, user_id, data.text⟩])
        s.nextOid = some ⟨s.nextOid, data.film_id, user_id, data.text⟩ := by
  have hnone : s.docs.find? (fun d => d.oid == s.nextOid) = none := by
    rw [List.find?_eq_none]
    intro d hd
    have hlt := hwf.2 d hd
    simp
    omega
  have hfind : find_one_by_id
      (s.docs ++ [⟨s.nextOid, data.film_id, user_id, data.text⟩]) s.nextOid
      = some ⟨s.nextOid, data.film_id, user_id, data.text⟩ := by
    unfold find_one_by_id
    rw [find?_append_of_none hnone]
    simp
  exact ⟨by simp [ReviewService.add, hnew, insert_one, hfind], hfind⟩

/-- C7 witness: the first insertion into the empty store. -/
theorem add_returns_persisted_witness :
    ReviewService.add emptyStore "u1" ⟨"f1", "great"⟩ false false false =
      ([], .ok (some ⟨0, "f1", "u1", "great"⟩),
       ⟨[⟨0, "f1", "u1", "great"⟩], 1⟩)
    ∧ find_one_by_id [⟨0, "f1", "u1", "great"⟩] 0 = some ⟨0, "f1", "u1", "great"⟩ := by
  have h := add_returns_persisted emptyStore "u1" ⟨"f1", "great"⟩ (by decide) (by decide)
  simpa [emptyStore] using h

/-- C2: for valid paging parameters, `get` succeeds without logging and
returns at most `per_page` records, sorted by non-decreasing identifier;
position `i` of the result is exactly position `(page_number - 1) * per_page + i`
of the identifier-sorted collection (so exactly that many leading documents
are skipped), and the result is empty when the page lies beyond the
available data. -/
theorem get_paginates (s : Store) (page_number per_page : Nat)
    (hp : 1 ≤ page_number) (hpp : 0 < per_page) :
    ∃ l : List ReviewFromDB,
      ReviewService.get s page_number per_page false false = ([], .ok l)
      ∧ l.length ≤ per_page
      ∧ List.Sorted (fun a b => a.id ≤ b.id) l
      ∧ (∀ i : Nat, l[i]? = if i < per_page then
          ((ReviewService.sortDocs s.docs)[(page_number - 1) * per_page + i]?).map
            ReviewService.fromDoc else none)
      ∧ (s.docs.length ≤ (page_number - 1) * per_page → l = []) := by
  refine ⟨(((ReviewService.sortDocs s.docs).drop
      ((page_number - 1) * per_page)).take per_page).map ReviewService.fromDoc,
    ?_, ?_, ?_, ?_, ?_⟩
  · have htt : (((ReviewService.sortDocs s.docs).drop
        ((page_number - 1) * per_page)).take per_page).take per_page =
        ((ReviewService.sortDocs s.docs).drop
          ((page_number - 1) * per_page)).take per_page := by
      rw [List.take_take, min_self]
    simp [ReviewService.get, htt]
  · rw [List.length_map]
    exact List.length_take_le _ _
  · have hs : List.Sorted oidLe (ReviewService.sortDocs s.docs) :=
      List.sorted_insertionSort oidLe s.docs
    have hsub : (((ReviewService.sortDocs s.docs).drop
        ((page_number - 1) * per_page)).take per_page).Sublist
        (ReviewService.sortDocs s.docs) :=
      (List.take_sublist _ _).trans (List.drop_sublist _ _)
    have hPW := List.Pairwise.sublist hsub hs
    exact List.pairwise_map.mpr hPW
  · intro i
    rw [List.getElem?_map, List.getElem?_take, List.getElem?_drop]
    by_cases hi : i < per_page
    · simp [hi]
    · simp [hi]
  · intro hbeyond
    have hlen : (ReviewService.sortDocs s.docs).length = s.docs.length :=
      (List.perm_insertionSort oidLe s.docs).length_eq
    have hnil : (ReviewService.sortDocs s.docs).drop
        ((page_number - 1) * per_page) = [] := by
      rw [List.drop_eq_nil_iff]
      omega
    simp [hnil]

/-- C2 witness: the second one-element page of the three-document store with
out-of-order identifiers. -/
theorem get_paginates_witness :
    1 ≤ 2 ∧ 0 < 1 ∧ ∃ l : List ReviewFromDB,
      ReviewService.get threeStore 2 1 false false = ([], .ok l)
      ∧ l.length ≤ 1
      ∧ List.Sorted (fun a b => a.id ≤ b.id) l
      ∧ (∀ i : Nat, l[i]? = if i < 1 then
          ((ReviewService.sortDocs threeStore.docs)[(2 - 1) * 1 + i]?).map
            ReviewService.fromDoc else none)
      ∧ (threeStore.docs.length ≤ (2 - 1) * 1 → l = []) :=
  ⟨by decide, by decide, get_paginates threeStore 2 1 (by decide) (by decide)⟩
